import Mathlib

/-!
Verification of the MAX17055 fuel-gauge driver (Arduino-MAX17055_Driver).

The repository ships only the class header `src/Arduino-MAX17055_Driver.h`:
the register-address table, the model-identifier table, the default member
initializers of the conversion profile, and every method signature are taken
from that header.  The method bodies (`.cpp`) are not part of the sources, so
each operation below is modelled from the specification's description of it;
those definitions carry a doc comment starting `Modelled from the spec:`.

C++ `float` arithmetic is embedded as exact rational arithmetic (`ℚ`), and
16-bit machine words as natural numbers reduced modulo 2^16 at every write.
-/

namespace MAX17055Drv

/-- Truncation of a natural number to a 16-bit register word. -/
def word16 (n : Nat) : Nat := n % 65536

/- Register addresses, from the `regAddr` enumeration of the header. -/
namespace regAddr

def Status      : Nat := 0x00

def Age         : Nat := 0x07

def Temperature : Nat := 0x08

def VCell       : Nat := 0x09

def AvgVCell    : Nat := 0x19

def Current     : Nat := 0x0A

def AvgCurrent  : Nat := 0x0B

def MaxMinCurr  : Nat := 0x1C

def RepSOC      : Nat := 0x06

def RepCap      : Nat := 0x05

def TimeToEmpty : Nat := 0x11

def DesignCap   : Nat := 0x18

def ModelCfg    : Nat := 0xDB

def VEmpty      : Nat := 0x3A

def FStat       : Nat := 0x3D

def HibCfg      : Nat := 0xBA

def CommandReg  : Nat := 0x60

def DQAcc       : Nat := 0x45

def DPAcc       : Nat := 0x46

def IchgTerm    : Nat := 0x1E

def RComp0      : Nat := 0x38

def TempCo      : Nat := 0x39

def FullCapRep  : Nat := 0x10

def Cycles      : Nat := 0x17

def FullCapNom  : Nat := 0x23

def MixCap      : Nat := 0x0F

def MixSOC      : Nat := 0x0D

def FilterCfg   : Nat := 0x29

def SOCHold     : Nat := 0xD3

end regAddr

/- Model identifiers, from the `modelID` enumeration of the header. -/
namespace modelID

def Generic : Nat := 0x00

def NCR_NCA : Nat := 0x20

def LiFePO4 : Nat := 0x60

end modelID

/-- The chip's register file: an address-indexed family of 16-bit words. -/
@[ext]
structure DeviceState where
  regs : Nat → Nat

/-- A register read returns the stored word unchanged. -/
def readRegPure (s : DeviceState) (r : Nat) : Nat := s.regs r

/-- A register write stores the value truncated to 16 bits. -/
def writeRegPure (s : DeviceState) (r v : Nat) : DeviceState :=
  ⟨fun a => if a = r then word16 v else s.regs a⟩

/-- The driver handle: the sense-resistor value and the five conversion
multipliers, the per-instance fields of the C++ class. -/
structure MAX17055 where
  resistSensor : ℚ
  capacity_multiplier_mAH : ℚ
  current_multiplier_mV : ℚ
  voltage_multiplier_V : ℚ
  time_multiplier_Hours : ℚ
  percentage_multiplier : ℚ

/-- Handle produced by the default constructor: the default member
initializers of the header (`resistSensor = 0.01`,
`capacity_multiplier_mAH = 5e-3/resistSensor`,
`current_multiplier_mV = 1.5625e-3/resistSensor`,
`voltage_multiplier_V = 7.8125e-5`, `time_multiplier_Hours = 5.625/3600`,
`percentage_multiplier = 1/256`); the constructor body is absent from the
sources and the spec gives it no further effect on the profile. -/
def defaultHandle : MAX17055 where
  resistSensor := 1 / 100
  capacity_multiplier_mAH := (5 / 1000) / (1 / 100)
  current_multiplier_mV := (15625 / 10000000) / (1 / 100)
  voltage_multiplier_V := 78125 / 1000000000
  time_multiplier_Hours := (5625 / 1000) / 3600
  percentage_multiplier := 1 / 256

/-- Modelled from the spec: the capacity-taking constructor body is absent
from the sources; per the data model it produces the same conversion profile
as the default constructor (the capacity only feeds later register writes). -/
def handleWithCapacity (_batteryCapacity : Nat) : MAX17055 := defaultHandle

/-- Modelled from the spec: `setResistSensor` body is absent from the
sources; it stores the new sense-resistor value and atomically recomputes
the capacity multiplier as `5e-3/R` and the current multiplier as
`1.5625e-3/R`, leaving the resistance-independent multipliers alone. -/
def setResistSensor (m : MAX17055) (r : ℚ) : MAX17055 :=
  { m with
    resistSensor := r
    capacity_multiplier_mAH := (5 / 1000) / r
    current_multiplier_mV := (15625 / 10000000) / r }

/-- Modelled from the spec: `getResistSensor` body is absent from the
sources; it returns the stored sense-resistor value. -/
def getResistSensor (m : MAX17055) : ℚ := m.resistSensor

/-- Interpretation of a 16-bit register word as a signed two's-complement
integer. -/
def toInt16 (n : Nat) : ℤ :=
  if n % 65536 < 32768 then (n % 65536 : ℤ) else (n % 65536 : ℤ) - 65536

/-- Floor of a rational, clamped to a 16-bit register word, used where the
C++ code converts a `float` quantity to a `uint16_t` register value. -/
def ratToWord (q : ℚ) : Nat := q.floor.toNat % 65536

/-- Modelled from the spec: bodies of the current getters are absent from
the sources; each reads one register and returns the raw value interpreted
as a signed 16-bit integer times the current multiplier, in milliamps. -/
def getInstantaneousCurrent (m : MAX17055) (s : DeviceState) : ℚ :=
  (toInt16 (readRegPure s regAddr.Current) : ℚ) * m.current_multiplier_mV

/-- Modelled from the spec: see `getInstantaneousCurrent`; reads the
`AvgCurrent` register. -/
def getAverageCurrent (m : MAX17055) (s : DeviceState) : ℚ :=
  (toInt16 (readRegPure s regAddr.AvgCurrent) : ℚ) * m.current_multiplier_mV

/-- Modelled from the spec: see `getInstantaneousCurrent`; per the spec's
conversion table the min-max getters scale the raw signed value of the
`MaxMinCurr` register by the current multiplier. -/
def getMaxCurrent (m : MAX17055) (s : DeviceState) : ℚ :=
  (toInt16 (readRegPure s regAddr.MaxMinCurr) : ℚ) * m.current_multiplier_mV

/-- Modelled from the spec: see `getMaxCurrent`. -/
def getMinCurrent (m : MAX17055) (s : DeviceState) : ℚ :=
  (toInt16 (readRegPure s regAddr.MaxMinCurr) : ℚ) * m.current_multiplier_mV

/-- Modelled from the spec: `getSOC` body is absent from the sources; it
reads `RepSOC` and scales by the percentage multiplier. -/
def getSOC (m : MAX17055) (s : DeviceState) : ℚ :=
  (readRegPure s regAddr.RepSOC : ℚ) * m.percentage_multiplier

/-- Modelled from the spec: `getAge` body is absent from the sources; it
reads `Age` and scales by the percentage multiplier. -/
def getAge (m : MAX17055) (s : DeviceState) : ℚ :=
  (readRegPure s regAddr.Age : ℚ) * m.percentage_multiplier

/-- Modelled from the spec: `getCycles` body is absent from the sources; it
reads `Cycles` and scales by the percentage multiplier. -/
def getCycles (m : MAX17055) (s : DeviceState) : ℚ :=
  (readRegPure s regAddr.Cycles : ℚ) * m.percentage_multiplier

/-- Modelled from the spec: `getEmptySOCHold` body is absent from the
sources; it reads `SOCHold` and scales by the percentage multiplier. -/
def getEmptySOCHold (m : MAX17055) (s : DeviceState) : ℚ :=
  (readRegPure s regAddr.SOCHold : ℚ) * m.percentage_multiplier

/-- Modelled from the spec: `setEmptySOCHold` body is absent from the
sources; it applies the inverse percentage conversion and writes the
`SOCHold` register. -/
def setEmptySOCHold (m : MAX17055) (percentage : ℚ) (s : DeviceState) : DeviceState :=
  writeRegPure s regAddr.SOCHold (ratToWord (percentage / m.percentage_multiplier))

/-- Modelled from the spec: packing of the `VEmpty` register, with both
arguments in 10 mV units per the header comment; the empty-voltage field
occupies bits 15:7 at 10 mV resolution and the recovery-voltage field
bits 6:0 at 40 mV resolution. -/
def packVEmpty (vEmpty vRecovery : Nat) : Nat :=
  (vEmpty % 512) * 128 + (vRecovery / 4) % 128

/-- Decoding of a packed `VEmpty` register word back to the
(vEmpty, vRecovery) pair in 10 mV units. -/
def decodeVEmpty (w : Nat) : Nat × Nat :=
  (w / 128 % 512, w % 128 * 4)

/-- Modelled from the spec: `setEmptyVoltage` body is absent from the
sources; it writes the packed pair to the `VEmpty` register. -/
def setEmptyVoltage (s : DeviceState) (vEmpty vRecovery : Nat) : DeviceState :=
  writeRegPure s regAddr.VEmpty (packVEmpty vEmpty vRecovery)

/-- Modelled from the spec: `getEmptyVoltage` body is absent from the
sources; it returns the raw packed 16-bit `VEmpty` register value. -/
def getEmptyVoltage (s : DeviceState) : Nat :=
  readRegPure s regAddr.VEmpty

/-- The learned-parameter quintuple
(RComp0, TempCo, FullCapRep, Cycles, FullCapNom). -/
structure LearnedParameters where
  rcomp0 : Nat
  tempCo : Nat
  fullCapRep : Nat
  cycles : Nat
  fullCapNom : Nat

/-- Modelled from the spec: `getLearnedParameters` body is absent from the
sources; it reads the five learned-parameter registers, with no write. -/
def getLearnedParameters (s : DeviceState) : LearnedParameters where
  rcomp0 := readRegPure s regAddr.RComp0
  tempCo := readRegPure s regAddr.TempCo
  fullCapRep := readRegPure s regAddr.FullCapRep
  cycles := readRegPure s regAddr.Cycles
  fullCapNom := readRegPure s regAddr.FullCapNom

/-- Modelled from the spec: `restoreLearnedParameters` body is absent from
the sources; it writes the five values back to the five learned-parameter
registers. -/
def restoreLearnedParameters (p : LearnedParameters) (s : DeviceState) : DeviceState :=
  writeRegPure
    (writeRegPure
      (writeRegPure
        (writeRegPure
          (writeRegPure s regAddr.RComp0 p.rcomp0)
          regAddr.TempCo p.tempCo)
        regAddr.FullCapRep p.fullCapRep)
      regAddr.Cycles p.cycles)
    regAddr.FullCapNom p.fullCapNom

/-- The one error kind of the register access layer. -/
inductive BusError where
  | busError

/-- A single bus transaction, as seen on the wire. -/
inductive Transaction where
  | rd (addr : Nat)
  | wr (addr : Nat) (value : Nat)
  deriving DecidableEq

/-- Behaviour of the external bus transport: for each address, either the
16-bit word a read transaction yields or a transport failure; and whether a
write transaction to a given address with a given value succeeds. -/
structure BusTransport where
  readResp : Nat → Option Nat
  writeResp : Nat → Nat → Bool

/-- Modelled from the spec: `readReg16Bit` body is absent from the sources;
it issues exactly one read transaction and returns the 16-bit word, or
surfaces a `BusError` if the transport fails, with no retry and no cache. -/
def read16 (t : BusTransport) (addr : Nat) : Except BusError Nat × List Transaction :=
  match t.readResp addr with
  | some v => (Except.ok (word16 v), [Transaction.rd addr])
  | none => (Except.error BusError.busError, [Transaction.rd addr])

/-- Modelled from the spec: `writeReg16Bit` body is absent from the sources;
it issues exactly one write transaction and surfaces a `BusError` if the
transport fails, with no retry. -/
def write16 (t : BusTransport) (addr value : Nat) : Except BusError Unit × List Transaction :=
  if t.writeResp addr (word16 value) then
    (Except.ok (), [Transaction.wr addr (word16 value)])
  else
    (Except.error BusError.busError, [Transaction.wr addr (word16 value)])

/-- The power-on-reset bit of the `Status` register (bit 1). -/
def porOf (s : DeviceState) : Bool :=
  readRegPure s regAddr.Status / 2 % 2 == 1

/-- A 16-bit word with bit 1 (the POR bit) forced to zero. -/
def clearBit1 (v : Nat) : Nat := v - 2 * (v / 2 % 2)

/-- Modelled from the spec: the bound of `init`'s model-load poll; the spec
fixes only that the number of poll iterations is bounded. -/
def modelRefreshPollLimit : Nat := 100

/-- Index of the first poll iteration (below the bound) at which the
environment reports the `ModelCfg` refresh bit as cleared. -/
def firstClearIdx (refreshCleared : Nat → Bool) (bound : Nat) : Option Nat :=
  (List.range bound).find? refreshCleared

/-- Modelled from the spec: the `ModelCfg` configuration word written by
`setModelCfg`, combining the refresh-request bit 15, the charge-voltage
flag at bit 10 and the upper-nibble model identifier. -/
def modelCfgValue (vChg : Bool) (id : Nat) : Nat :=
  0x8000 + (if vChg then 0x400 else 0) + id % 256 / 16 * 16

/-- Result of `init`: the success flag, the value stored through the `por`
output reference, the updated handle and device state, and the trace of
register writes the call issued. -/
structure InitResult where
  success : Bool
  por : Bool
  handle : MAX17055
  state : DeviceState
  writes : List (Nat × Nat)

/-- A register write that also appends to a trace of issued writes. -/
def wtrace (p : DeviceState × List (Nat × Nat)) (r v : Nat) :
    DeviceState × List (Nat × Nat) :=
  (writeRegPure p.1 r v, p.2 ++ [(r, v)])

/-- Modelled from the spec: `init` body is absent from the sources; the
mandated sequence is: derive the conversion profile from the sense
resistor; read `Status` and set the `por` output from its POR bit; if POR
is clear return success at once with no write; otherwise wait for settling,
write `DesignCap` (capacity-converted), write the packed `VEmpty` register,
write `ModelCfg`, poll its refresh bit within the bounded limit (failure is
an `InitError`, leaving `Status` untouched), then clear the POR bit of
`Status` and clear `HibCfg` so measurement resumes.  The environment
argument `refreshCleared` tells, per poll iteration, whether the chip has
cleared the refresh bit; the settling wait has no observable state effect
here. -/
def init (m : MAX17055) (batteryCapacity vEmpty vRecovery : Nat) (id : Nat)
    (vCharge : Bool) (r : ℚ) (s : DeviceState) (refreshCleared : Nat → Bool) :
    InitResult :=
  let m1 := setResistSensor m r
  if porOf s then
    let p1 := wtrace (s, []) regAddr.DesignCap
      (ratToWord ((batteryCapacity : ℚ) / m1.capacity_multiplier_mAH))
    let p2 := wtrace p1 regAddr.VEmpty (packVEmpty vEmpty vRecovery)
    let p3 := wtrace p2 regAddr.ModelCfg (modelCfgValue vCharge id)
    match firstClearIdx refreshCleared modelRefreshPollLimit with
    | none =>
        { success := false, por := true, handle := m1, state := p3.1, writes := p3.2 }
    | some _ =>
        let p4 := wtrace p3 regAddr.Status (clearBit1 (readRegPure p3.1 regAddr.Status))
        let p5 := wtrace p4 regAddr.HibCfg 0
        { success := true, por := true, handle := m1, state := p5.1, writes := p5.2 }
  else
    { success := true, por := false, handle := m1, state := s, writes := [] }

/-- Consistency invariant of the conversion profile: the two
resistance-dependent multipliers are derived from the stored sense-resistor
value and the three resistance-independent multipliers hold their fixed
design constants. -/
def profileConsistent (m : MAX17055) : Prop :=
  m.capacity_multiplier_mAH = (5 / 1000) / m.resistSensor ∧
  m.current_multiplier_mV = (15625 / 10000000) / m.resistSensor ∧
  m.voltage_multiplier_V = 78125 / 1000000000 ∧
  m.time_multiplier_Hours = (5625 / 1000) / 3600 ∧
  m.percentage_multiplier = 1 / 256

instance (m : MAX17055) : Decidable (profileConsistent m) := by
  unfold profileConsistent; infer_instance

/-- A device state with every register zero. -/
def zeroState : DeviceState := ⟨fun _ => 0⟩

/-- A device state with only the POR bit of `Status` set. -/
def porState : DeviceState := ⟨fun a => if a = regAddr.Status then 2 else 0⟩

/-- A device state whose `RepSOC` register reads 0x6400. -/
def socState : DeviceState := ⟨fun a => if a = regAddr.RepSOC then 25600 else 0⟩

/-- A bounded device state with distinct register contents. -/
def sampleState : DeviceState := ⟨fun a => (257 * a + 3) % 65536⟩

theorem word16_lt (n : Nat) : word16 n < 65536 := Nat.mod_lt _ (by decide)

theorem sampleState_bounded : ∀ a, sampleState.regs a < 65536 :=
  fun a => Nat.mod_lt _ (by decide)

/-- C4: for every r > 0, `setResistSensor r` followed by `getResistSensor`
returns exactly r; after the call the capacity multiplier is 5e-3/r and the
current multiplier 1.5625e-3/r, while the voltage, time and percentage
multipliers are unchanged and, on a consistent handle, keep their fixed
values 7.8125e-5, 5.625/3600 and 1/256. -/
theorem setResistSensor_getResistSensor_roundtrip (m : MAX17055) (r : ℚ)
    (hr : 0 < r) (hm : profileConsistent m) :
    getResistSensor (setResistSensor m r) = r ∧
    (setResistSensor m r).capacity_multiplier_mAH = (5 / 1000) / r ∧
    (setResistSensor m r).current_multiplier_mV = (15625 / 10000000) / r ∧
    (setResistSensor m r).voltage_multiplier_V = m.voltage_multiplier_V ∧
    (setResistSensor m r).time_multiplier_Hours = m.time_multiplier_Hours ∧
    (setResistSensor m r).percentage_multiplier = m.percentage_multiplier ∧
    (setResistSensor m r).voltage_multiplier_V = 78125 / 1000000000 ∧
    (setResistSensor m r).time_multiplier_Hours = (5625 / 1000) / 3600 ∧
    (setResistSensor m r).percentage_multiplier = 1 / 256 :=
  ⟨rfl, rfl, rfl, rfl, rfl, rfl, hm.2.2.1, hm.2.2.2.1, hm.2.2.2.2⟩

/-- Witness for C4 at the default handle and r = 1/50. -/
theorem setResistSensor_getResistSensor_roundtrip_witness :
    (0 : ℚ) < 1 / 50 ∧ profileConsistent defaultHandle ∧
    getResistSensor (setResistSensor defaultHandle (1 / 50)) = 1 / 50 ∧
    (setResistSensor defaultHandle (1 / 50)).capacity_multiplier_mAH =
      (5 / 1000) / (1 / 50) ∧
    (setResistSensor defaultHandle (1 / 50)).current_multiplier_mV =
      (15625 / 10000000) / (1 / 50) ∧
    (setResistSensor defaultHandle (1 / 50)).voltage_multiplier_V =
      defaultHandle.voltage_multiplier_V ∧
    (setResistSensor defaultHandle (1 / 50)).time_multiplier_Hours =
      defaultHandle.time_multiplier_Hours ∧
    (setResistSensor defaultHandle (1 / 50)).percentage_multiplier =
      defaultHandle.percentage_multiplier ∧
    (setResistSensor defaultHandle (1 / 50)).voltage_multiplier_V =
      78125 / 1000000000 ∧
    (setResistSensor defaultHandle (1 / 50)).time_multiplier_Hours =
      (5625 / 1000) / 3600 ∧
    (setResistSensor defaultHandle (1 / 50)).percentage_multiplier = 1 / 256 :=
  ⟨by norm_num, ⟨rfl, rfl, rfl, rfl, rfl⟩,
    (setResistSensor_getResistSensor_roundtrip defaultHandle (1 / 50)
      (by norm_num) ⟨rfl, rfl, rfl, rfl, rfl⟩).1,
    (setResistSensor_getResistSensor_roundtrip defaultHandle (1 / 50)
      (by norm_num) ⟨rfl, rfl, rfl, rfl, rfl⟩).2⟩

theorem ratToWord_lt (q : ℚ) : ratToWord q < 65536 := Nat.mod_lt _ (by decide)

theorem word16_ratToWord (q : ℚ) : word16 (ratToWord q) = ratToWord q :=
  Nat.mod_eq_of_lt (ratToWord_lt q)

/-- C5: on a consistent handle with sense-resistor value r, each of the four
current getters returns the raw register value interpreted as a signed
16-bit integer times 1.5625e-3/r, and immediately after `setResistSensor r`
every getter already uses the multiplier derived from the new r. -/
theorem currentGetters_scale (m : MAX17055) (s : DeviceState) (r : ℚ)
    (hr : 0 < r) (hm : profileConsistent m) :
    getInstantaneousCurrent m s =
      (toInt16 (readRegPure s regAddr.Current) : ℚ) *
        ((15625 / 10000000) / m.resistSensor) ∧
    getAverageCurrent m s =
      (toInt16 (readRegPure s regAddr.AvgCurrent) : ℚ) *
        ((15625 / 10000000) / m.resistSensor) ∧
    getMaxCurrent m s =
      (toInt16 (readRegPure s regAddr.MaxMinCurr) : ℚ) *
        ((15625 / 10000000) / m.resistSensor) ∧
    getMinCurrent m s =
      (toInt16 (readRegPure s regAddr.MaxMinCurr) : ℚ) *
        ((15625 / 10000000) / m.resistSensor) ∧
    getInstantaneousCurrent (setResistSensor m r) s =
      (toInt16 (readRegPure s regAddr.Current) : ℚ) * ((15625 / 10000000) / r) ∧
    getAverageCurrent (setResistSensor m r) s =
      (toInt16 (readRegPure s regAddr.AvgCurrent) : ℚ) * ((15625 / 10000000) / r) ∧
    getMaxCurrent (setResistSensor m r) s =
      (toInt16 (readRegPure s regAddr.MaxMinCurr) : ℚ) * ((15625 / 10000000) / r) ∧
    getMinCurrent (setResistSensor m r) s =
      (toInt16 (readRegPure s regAddr.MaxMinCurr) : ℚ) * ((15625 / 10000000) / r) :=
  ⟨by simp only [getInstantaneousCurrent]; rw [hm.2.1],
   by simp only [getAverageCurrent]; rw [hm.2.1],
   by simp only [getMaxCurrent]; rw [hm.2.1],
   by simp only [getMinCurrent]; rw [hm.2.1],
   rfl, rfl, rfl, rfl⟩

/-- Witness for C5 at the default handle, a sample state and r = 1/50. -/
theorem currentGetters_scale_witness :
    (0 : ℚ) < 1 / 50 ∧ profileConsistent defaultHandle ∧
    getInstantaneousCurrent defaultHandle sampleState =
      (toInt16 (readRegPure sampleState regAddr.Current) : ℚ) *
        ((15625 / 10000000) / defaultHandle.resistSensor) ∧
    getAverageCurrent defaultHandle sampleState =
      (toInt16 (readRegPure sampleState regAddr.AvgCurrent) : ℚ) *
        ((15625 / 10000000) / defaultHandle.resistSensor) ∧
    getMaxCurrent defaultHandle sampleState =
      (toInt16 (readRegPure sampleState regAddr.MaxMinCurr) : ℚ) *
        ((15625 / 10000000) / defaultHandle.resistSensor) ∧
    getMinCurrent defaultHandle sampleState =
      (toInt16 (readRegPure sampleState regAddr.MaxMinCurr) : ℚ) *
        ((15625 / 10000000) / defaultHandle.resistSensor) ∧
    getInstantaneousCurrent (setResistSensor defaultHandle (1 / 50)) sampleState =
      (toInt16 (readRegPure sampleState regAddr.Current) : ℚ) *
        ((15625 / 10000000) / (1 / 50)) ∧
    getAverageCurrent (setResistSensor defaultHandle (1 / 50)) sampleState =
      (toInt16 (readRegPure sampleState regAddr.AvgCurrent) : ℚ) *
        ((15625 / 10000000) / (1 / 50)) ∧
    getMaxCurrent (setResistSensor defaultHandle (1 / 50)) sampleState =
      (toInt16 (readRegPure sampleState regAddr.MaxMinCurr) : ℚ) *
        ((15625 / 10000000) / (1 / 50)) ∧
    getMinCurrent (setResistSensor defaultHandle (1 / 50)) sampleState =
      (toInt16 (readRegPure sampleState regAddr.MaxMinCurr) : ℚ) *
        ((15625 / 10000000) / (1 / 50)) :=
  ⟨by norm_num, ⟨rfl, rfl, rfl, rfl, rfl⟩,
    (currentGetters_scale defaultHandle sampleState (1 / 50)
      (by norm_num) ⟨rfl, rfl, rfl, rfl, rfl⟩).1,
    (currentGetters_scale defaultHandle sampleState (1 / 50)
      (by norm_num) ⟨rfl, rfl, rfl, rfl, rfl⟩).2⟩

/-- C6: with the percentage multiplier at its fixed value 1/256, the getters
`getSOC`, `getAge`, `getCycles` and `getEmptySOCHold` all return the raw
register value times 1/256, `setEmptySOCHold` writes the inverse conversion
(percentage times 256) to `SOCHold`, and on raw `RepSOC` value 0x6400 the
state of charge reads exactly 100 percent. -/
theorem percentage_scaling (m : MAX17055) (s : DeviceState) (p : ℚ)
    (hm : m.percentage_multiplier = 1 / 256) :
    getSOC m s = (readRegPure s regAddr.RepSOC : ℚ) * (1 / 256) ∧
    getAge m s = (readRegPure s regAddr.Age : ℚ) * (1 / 256) ∧
    getCycles m s = (readRegPure s regAddr.Cycles : ℚ) * (1 / 256) ∧
    getEmptySOCHold m s = (readRegPure s regAddr.SOCHold : ℚ) * (1 / 256) ∧
    (setEmptySOCHold m p s).regs regAddr.SOCHold = ratToWord (p * 256) ∧
    (readRegPure s regAddr.RepSOC = 25600 → getSOC m s = 100) := by
  refine ⟨by simp only [getSOC, hm], by simp only [getAge, hm],
    by simp only [getCycles, hm], by simp only [getEmptySOCHold, hm], ?_, ?_⟩
  · simp only [setEmptySOCHold, writeRegPure, hm, if_pos rfl, if_true,
      eq_self_iff_true]
    rw [div_div_eq_mul_div, div_one, word16_ratToWord]
  · intro h
    simp only [getSOC, hm, h]
    norm_num

/-- Witness for C6 at the default handle and a state with RepSOC = 0x6400. -/
theorem percentage_scaling_witness :
    defaultHandle.percentage_multiplier = 1 / 256 ∧
    getSOC defaultHandle socState =
      (readRegPure socState regAddr.RepSOC : ℚ) * (1 / 256) ∧
    getAge defaultHandle socState =
      (readRegPure socState regAddr.Age : ℚ) * (1 / 256) ∧
    getCycles defaultHandle socState =
      (readRegPure socState regAddr.Cycles : ℚ) * (1 / 256) ∧
    getEmptySOCHold defaultHandle socState =
      (readRegPure socState regAddr.SOCHold : ℚ) * (1 / 256) ∧
    (setEmptySOCHold defaultHandle 50 socState).regs regAddr.SOCHold =
      ratToWord (50 * 256) ∧
    (readRegPure socState regAddr.RepSOC = 25600 →
      getSOC defaultHandle socState = 100) :=
  ⟨rfl, (percentage_scaling defaultHandle socState 50 rfl).1,
    (percentage_scaling defaultHandle socState 50 rfl).2⟩

/-- C7: for a pair representable at the register's resolution (the empty
voltage below 2^9 steps of 10 mV, the recovery voltage a multiple of 40 mV
below the same range), `setEmptyVoltage` then `getEmptyVoltage` returns the
packed word and decoding it recovers the original pair exactly. -/
theorem setEmptyVoltage_getEmptyVoltage_roundtrip (s : DeviceState)
    (vE vR : Nat) (h1 : vE < 512) (h2 : vR < 512) (h3 : vR % 4 = 0) :
    getEmptyVoltage (setEmptyVoltage s vE vR) = packVEmpty vE vR ∧
    decodeVEmpty (getEmptyVoltage (setEmptyVoltage s vE vR)) = (vE, vR) := by
  have hget : getEmptyVoltage (setEmptyVoltage s vE vR) = packVEmpty vE vR := by
    simp only [getEmptyVoltage, setEmptyVoltage, readRegPure, writeRegPure,
      if_pos rfl, if_true, eq_self_iff_true, word16, packVEmpty]
    omega
  refine ⟨hget, ?_⟩
  rw [hget]
  simp only [decodeVEmpty, packVEmpty, Prod.mk.injEq]
  omega

/-- Witness for C7 at vEmpty = 300 and vRecovery = 360 (3.0 V and 3.6 V). -/
theorem setEmptyVoltage_getEmptyVoltage_roundtrip_witness :
    300 < 512 ∧ 360 < 512 ∧ 360 % 4 = 0 ∧
    getEmptyVoltage (setEmptyVoltage zeroState 300 360) = packVEmpty 300 360 ∧
    decodeVEmpty (getEmptyVoltage (setEmptyVoltage zeroState 300 360)) =
      (300, 360) :=
  ⟨by decide, by decide, by decide,
    (setEmptyVoltage_getEmptyVoltage_roundtrip zeroState 300 360
      (by decide) (by decide) (by decide)).1,
    (setEmptyVoltage_getEmptyVoltage_roundtrip zeroState 300 360
      (by decide) (by decide) (by decide)).2⟩

/-- C8: reading the five learned-parameter registers with
`getLearnedParameters` and writing the same bundle back with
`restoreLearnedParameters` leaves the device state, and in particular all
five registers, identical to the state before the read. -/
theorem learnedParameters_roundtrip (s : DeviceState)
    (hb : s.regs regAddr.RComp0 < 65536 ∧ s.regs regAddr.TempCo < 65536 ∧
      s.regs regAddr.FullCapRep < 65536 ∧ s.regs regAddr.Cycles < 65536 ∧
      s.regs regAddr.FullCapNom < 65536) :
    restoreLearnedParameters (getLearnedParameters s) s = s := by
  ext a
  simp only [restoreLearnedParameters, getLearnedParameters, writeRegPure,
    readRegPure, word16]
  split_ifs with k1 k2 k3 k4 k5
  · rw [k1]; exact Nat.mod_eq_of_lt hb.2.2.2.2
  · rw [k2]; exact Nat.mod_eq_of_lt hb.2.2.2.1
  · rw [k3]; exact Nat.mod_eq_of_lt hb.2.2.1
  · rw [k4]; exact Nat.mod_eq_of_lt hb.2.1
  · rw [k5]; exact Nat.mod_eq_of_lt hb.1
  · rfl

/-- Witness for C8 at a sample state with distinct register contents. -/
theorem learnedParameters_roundtrip_witness :
    (sampleState.regs regAddr.RComp0 < 65536 ∧
      sampleState.regs regAddr.TempCo < 65536 ∧
      sampleState.regs regAddr.FullCapRep < 65536 ∧
      sampleState.regs regAddr.Cycles < 65536 ∧
      sampleState.regs regAddr.FullCapNom < 65536) ∧
    restoreLearnedParameters (getLearnedParameters sampleState) sampleState =
      sampleState :=
  ⟨by decide,
    learnedParameters_roundtrip sampleState (by decide)⟩

/-- C9: a 16-bit register read yields the transported word or a `BusError`
exactly when the transport fails, a 16-bit register write succeeds or
yields a `BusError` exactly when the transport fails, and either call
issues exactly one bus transaction, with no retry and no cache. -/
theorem registerAccess_single_transaction (t : BusTransport) (addr value : Nat) :
    (read16 t addr).2 = [Transaction.rd addr] ∧
    (read16 t addr).2.length = 1 ∧
    (read16 t addr).1 = (match t.readResp addr with
      | some v => Except.ok (word16 v)
      | none => Except.error BusError.busError) ∧
    (write16 t addr value).2 = [Transaction.wr addr (word16 value)] ∧
    (write16 t addr value).2.length = 1 ∧
    (write16 t addr value).1 = (if t.writeResp addr (word16 value) then
      Except.ok () else Except.error BusError.busError) := by
  cases h : t.readResp addr <;> cases h2 : t.writeResp addr (word16 value) <;>
    simp [read16, write16, h, h2]

/-- An environment in which the chip reports the `ModelCfg` refresh bit as
already cleared at every poll. -/
def alwaysClear : Nat → Bool := fun _ => true

/-- An environment in which the chip never clears the `ModelCfg` refresh
bit. -/
def neverClear : Nat → Bool := fun _ => false

/-- C10: both constructors produce the profile of the header's default
member initializers (sense resistor 0.01 ohm, capacity multiplier 0.5,
current multiplier 0.15625, voltage 7.8125e-5, time 5.625/3600, percentage
1/256), that profile satisfies the consistency invariant, and the invariant
is preserved by the two profile-changing operations of the public
interface, `setResistSensor` and `init`. -/
theorem profile_invariant (m : MAX17055) (c cap vE vR id : Nat) (vChg : Bool)
    (r : ℚ) (s : DeviceState) (env : Nat → Bool) (hm : profileConsistent m) :
    defaultHandle.resistSensor = 1 / 100 ∧
    defaultHandle.capacity_multiplier_mAH = 1 / 2 ∧
    defaultHandle.current_multiplier_mV = 5 / 32 ∧
    defaultHandle.voltage_multiplier_V = 78125 / 1000000000 ∧
    defaultHandle.time_multiplier_Hours = 1 / 640 ∧
    defaultHandle.percentage_multiplier = 1 / 256 ∧
    profileConsistent defaultHandle ∧
    handleWithCapacity c = defaultHandle ∧
    profileConsistent (setResistSensor m r) ∧
    profileConsistent ((init m cap vE vR id vChg r s env).handle) := by
  have hset : profileConsistent (setResistSensor m r) :=
    ⟨rfl, rfl, hm.2.2.1, hm.2.2.2.1, hm.2.2.2.2⟩
  refine ⟨rfl, by norm_num [defaultHandle], by norm_num [defaultHandle], rfl,
    by norm_num [defaultHandle], rfl, ⟨rfl, rfl, rfl, rfl, rfl⟩, rfl, hset, ?_⟩
  unfold init
  dsimp only
  split
  · split <;> exact hset
  · exact hset

/-- Witness for C10 at the default handle and concrete arguments. -/
theorem profile_invariant_witness :
    profileConsistent defaultHandle ∧
    defaultHandle.resistSensor = 1 / 100 ∧
    defaultHandle.capacity_multiplier_mAH = 1 / 2 ∧
    defaultHandle.current_multiplier_mV = 5 / 32 ∧
    defaultHandle.voltage_multiplier_V = 78125 / 1000000000 ∧
    defaultHandle.time_multiplier_Hours = 1 / 640 ∧
    defaultHandle.percentage_multiplier = 1 / 256 ∧
    profileConsistent defaultHandle ∧
    handleWithCapacity 3000 = defaultHandle ∧
    profileConsistent (setResistSensor defaultHandle (1 / 50)) ∧
    profileConsistent
      ((init defaultHandle 3000 300 360 modelID.Generic false (1 / 50)
        zeroState alwaysClear).handle) :=
  ⟨⟨rfl, rfl, rfl, rfl, rfl⟩,
    profile_invariant defaultHandle 3000 3000 300 360 modelID.Generic false
      (1 / 50) zeroState alwaysClear ⟨rfl, rfl, rfl, rfl, rfl⟩⟩

/-- C1: from any device state with the POR bit of `Status` set, and any
environment in which the refresh bit clears within the bounded poll,
`init(3000, 3000, 3080, Generic, false, 0.01, por)` stores the
capacity-converted word in `DesignCap`, the packed voltage pair in
`VEmpty`, the combined configuration word in `ModelCfg`, clears the POR
bit of `Status`, returns success and reports `por = true`. -/
theorem init_por_configures (m : MAX17055) (s : DeviceState) (env : Nat → Bool)
    (hpor : porOf s = true)
    (henv : (firstClearIdx env modelRefreshPollLimit).isSome = true) :
    (init m 3000 3000 3080 modelID.Generic false (1 / 100) s env).success = true ∧
    (init m 3000 3000 3080 modelID.Generic false (1 / 100) s env).por = true ∧
    readRegPure (init m 3000 3000 3080 modelID.Generic false (1 / 100) s env).state
      regAddr.DesignCap = ratToWord ((3000 : ℚ) / ((5 / 1000) / (1 / 100))) ∧
    readRegPure (init m 3000 3000 3080 modelID.Generic false (1 / 100) s env).state
      regAddr.VEmpty = packVEmpty 3000 3080 ∧
    readRegPure (init m 3000 3000 3080 modelID.Generic false (1 / 100) s env).state
      regAddr.ModelCfg = modelCfgValue false modelID.Generic ∧
    porOf (init m 3000 3000 3080 modelID.Generic false (1 / 100) s env).state
      = false := by
  obtain ⟨k, hk⟩ := Option.isSome_iff_exists.mp henv
  simp only [init, hpor, if_true, hk, wtrace, setResistSensor]
  refine ⟨trivial, trivial, ?_, ?_, ?_, ?_⟩
  · simp only [readRegPure, writeRegPure, regAddr.DesignCap, regAddr.VEmpty,
      regAddr.ModelCfg, regAddr.Status, regAddr.HibCfg]
    norm_num [word16_ratToWord]
  · simp only [readRegPure, writeRegPure, regAddr.DesignCap, regAddr.VEmpty,
      regAddr.ModelCfg, regAddr.Status, regAddr.HibCfg]
    norm_num [word16, packVEmpty]
  · simp only [readRegPure, writeRegPure, regAddr.DesignCap, regAddr.VEmpty,
      regAddr.ModelCfg, regAddr.Status, regAddr.HibCfg]
    norm_num [word16, modelCfgValue, modelID.Generic]
  · simp only [porOf, readRegPure, writeRegPure, regAddr.DesignCap,
      regAddr.VEmpty, regAddr.ModelCfg, regAddr.Status, regAddr.HibCfg]
    norm_num [word16, clearBit1, beq_eq_false_iff_ne]
    omega

/-- Witness for C1 at the default handle, a POR state and an immediately
clearing environment. -/
theorem init_por_configures_witness :
    porOf porState = true ∧
    (firstClearIdx alwaysClear modelRefreshPollLimit).isSome = true ∧
    (init defaultHandle 3000 3000 3080 modelID.Generic false (1 / 100)
      porState alwaysClear).success = true ∧
    (init defaultHandle 3000 3000 3080 modelID.Generic false (1 / 100)
      porState alwaysClear).por = true ∧
    readRegPure (init defaultHandle 3000 3000 3080 modelID.Generic false
      (1 / 100) porState alwaysClear).state regAddr.DesignCap =
      ratToWord ((3000 : ℚ) / ((5 / 1000) / (1 / 100))) ∧
    readRegPure (init defaultHandle 3000 3000 3080 modelID.Generic false
      (1 / 100) porState alwaysClear).state regAddr.VEmpty =
      packVEmpty 3000 3080 ∧
    readRegPure (init defaultHandle 3000 3000 3080 modelID.Generic false
      (1 / 100) porState alwaysClear).state regAddr.ModelCfg =
      modelCfgValue false modelID.Generic ∧
    porOf (init defaultHandle 3000 3000 3080 modelID.Generic false (1 / 100)
      porState alwaysClear).state = false :=
  ⟨by decide, by decide,
    (init_por_configures defaultHandle porState alwaysClear
      (by decide) (by decide)).1,
    (init_por_configures defaultHandle porState alwaysClear
      (by decide) (by decide)).2⟩

/-- C2: from any device state with the POR bit of `Status` clear, `init`
returns success at once with `por = false`, issues no register write, and
leaves the device state, in particular the five learned-parameter
registers, untouched. -/
theorem init_no_por (m : MAX17055) (cap vE vR id : Nat) (vChg : Bool)
    (r : ℚ) (s : DeviceState) (env : Nat → Bool) (hpor : porOf s = false) :
    (init m cap vE vR id vChg r s env).success = true ∧
    (init m cap vE vR id vChg r s env).por = false ∧
    (init m cap vE vR id vChg r s env).writes = [] ∧
    (init m cap vE vR id vChg r s env).state = s ∧
    getLearnedParameters (init m cap vE vR id vChg r s env).state =
      getLearnedParameters s := by
  simp [init, hpor]

/-- Witness for C2 at the default handle and the all-zero state. -/
theorem init_no_por_witness :
    porOf zeroState = false ∧
    (init defaultHandle 3000 300 360 modelID.Generic false (1 / 100)
      zeroState alwaysClear).success = true ∧
    (init defaultHandle 3000 300 360 modelID.Generic false (1 / 100)
      zeroState alwaysClear).por = false ∧
    (init defaultHandle 3000 300 360 modelID.Generic false (1 / 100)
      zeroState alwaysClear).writes = [] ∧
    (init defaultHandle 3000 300 360 modelID.Generic false (1 / 100)
      zeroState alwaysClear).state = zeroState ∧
    getLearnedParameters (init defaultHandle 3000 300 360 modelID.Generic
      false (1 / 100) zeroState alwaysClear).state =
      getLearnedParameters zeroState :=
  ⟨by decide,
    init_no_por defaultHandle 3000 300 360 modelID.Generic false (1 / 100)
      zeroState alwaysClear (by decide)⟩

/-- C3: if, from a state with the POR bit set, the refresh bit of
`ModelCfg` never reads back clear within the bounded poll, `init` returns
failure and the POR bit of `Status` is still set afterwards. -/
theorem init_refresh_timeout (m : MAX17055) (cap vE vR id : Nat)
    (vChg : Bool) (r : ℚ) (s : DeviceState) (env : Nat → Bool)
    (hpor : porOf s = true)
    (henv : firstClearIdx env modelRefreshPollLimit = none) :
    (init m cap vE vR id vChg r s env).success = false ∧
    porOf (init m cap vE vR id vChg r s env).state = true := by
  simp only [init, hpor, if_true, henv, wtrace]
  refine ⟨trivial, ?_⟩
  simp only [porOf, readRegPure, writeRegPure, regAddr.DesignCap,
    regAddr.VEmpty, regAddr.ModelCfg, regAddr.Status, beq_iff_eq] at hpor ⊢
  norm_num
  omega

/-- Witness for C3 at the default handle, a POR state and a never-clearing
environment. -/
theorem init_refresh_timeout_witness :
    porOf porState = true ∧
    firstClearIdx neverClear modelRefreshPollLimit = none ∧
    (init defaultHandle 3000 300 360 modelID.Generic false (1 / 100)
      porState neverClear).success = false ∧
    porOf (init defaultHandle 3000 300 360 modelID.Generic false (1 / 100)
      porState neverClear).state = true :=
  ⟨by decide, by decide,
    init_refresh_timeout defaultHandle 3000 300 360 modelID.Generic false
      (1 / 100) porState neverClear (by decide) (by decide)⟩

end MAX17055Drv
